import Mathlib

/-!
Verification of `pydantic/_internal/_schema_generation_shared.py`: the JSON
schema handler chain (`GetJsonSchemaHandler`, `UnpackedRefJsonSchemaHandler`,
`GenerateJsonSchemaHandler`, and the ref-unpacking wrapper combinator).

The Python code relies on object identity (`is`) and in-place dict mutation
(`dict.clear()` / `dict.update()`), so schema values are embedded behind an
explicit heap: an address (`Addr`) stands for one Python dict object, and the
heap maps addresses to their current contents.  Two addresses being different
models two distinct Python objects; overwriting the heap at an address models
in-place mutation that every holder of that object observes.
-/

namespace SchemaGenShared

/-- A JSON value stored under a key of a schema dict.  The claims only need
string values (for example ref names and type names) and numbers. -/
inductive JVal where
  | str : String → JVal
  | num : Int → JVal
deriving DecidableEq, Repr

/-- How Python formats a value inside an f-string. -/
def JVal.fstr : JVal → String
  | .str s => s
  | .num n => toString n

/-- The contents of one schema dict (`JsonSchemaValue = Dict[str, Any]`):
an association list from string keys to values. -/
abbrev Schema := List (String × JVal)

/-- Python dict access `d.get(k)`: the value stored under `k`, if any. -/
def Schema.get : Schema → String → Option JVal
  | [], _ => none
  | (k, v) :: rest, key => if k = key then some v else Schema.get rest key

/-- The address of a schema dict object: models Python object identity. -/
abbrev Addr := Nat

/-- A core schema (`CoreSchemaOrField`) is opaque to this subsystem; an
identifier suffices. -/
abbrev CoreSchemaOrField := Nat

/-- Errors a handler operation can surface.  `lookupError` is Python's
`LookupError` raised by `resolve_ref_schema`; `invalidAddr` marks access to an
address the heap does not hold (impossible in a well-formed run). -/
inductive SchemaError where
  | lookupError : String → SchemaError
  | invalidAddr : SchemaError
deriving DecidableEq, Repr

instance {ε α : Type} [DecidableEq ε] [DecidableEq α] : DecidableEq (Except ε α) := fun x y =>
  match x, y with
  | .ok a, .ok b =>
    if h : a = b then .isTrue (h ▸ rfl) else .isFalse fun hh => h (Except.noConfusion hh id)
  | .error e, .error f =>
    if h : e = f then .isTrue (h ▸ rfl) else .isFalse fun hh => h (Except.noConfusion hh id)
  | .ok _, .error _ => .isFalse fun hh => Except.noConfusion hh
  | .error _, .ok _ => .isFalse fun hh => Except.noConfusion hh

/-- The schema generation mode (`JsonSchemaMode`). -/
inductive JsonSchemaMode where
  | validation
  | serialization
deriving DecidableEq, Repr

/-- The mutable state a handler chain runs over: the heap of schema dict
objects, the engine's definitions registry (ref name → schema object), and an
allocation counter for fresh objects.

Modelled from the spec: the definitions registry itself lives in the
generation engine (`pydantic.json_schema.GenerateJsonSchema.definitions`),
outside this source file; per the spec it is a mutable mapping from ref name
to schema value supporting read-by-key and overwrite-by-key. -/
structure EngineState where
  heap : Addr → Option Schema
  defs : JVal → Option Addr
  next : Addr

/-- Build a heap from an explicit list of objects. -/
def heapOf (l : List (Addr × Schema)) : Addr → Option Schema :=
  fun a => l.lookup a

/-- Build a definitions registry from an explicit list of entries. -/
def defsOf (l : List (JVal × Addr)) : JVal → Option Addr :=
  fun r => l.lookup r

/-- In-place mutation of the dict object at address `a`
(`d.clear(); d.update(src)`): the heap now holds `v` at `a`; the registry and
every other object are untouched. -/
def setHeap (st : EngineState) (a : Addr) (v : Schema) : EngineState :=
  { st with heap := fun b => if b = a then some v else st.heap b }

/-- Allocate a fresh dict object holding `v` (a Python dict literal). -/
def alloc (st : EngineState) (v : Schema) : Addr × EngineState :=
  (st.next,
   { heap := fun b => if b = st.next then some v else st.heap b
     defs := st.defs
     next := st.next + 1 })

/-- Modelled from the spec: `GenerateJsonSchema.get_schema_from_definitions`
(engine code outside this file) — look the ref name up in the definitions
registry, returning the stored schema object or absent. -/
def get_schema_from_definitions (st : EngineState) (ref : JVal) : Option Addr :=
  st.defs ref

/-- A concrete `GetJsonSchemaHandler`: its `mode`, its `__call__` (which may
mutate engine state, e.g. by generating definitions), and its
`resolve_ref_schema` (a read-only projection of the state).  `σ` is the
handler's view of mutable state. -/
structure HandlerI (σ : Type) where
  mode : JsonSchemaMode
  call : CoreSchemaOrField → σ → Except SchemaError (Addr × σ)
  resolveRef : σ → Addr → Except SchemaError Addr

/-- The generation engine (`GenerateJsonSchema`) as consumed here: its
`generate_inner` entry point and its `mode`. -/
structure GenerateJsonSchema where
  generate_inner : CoreSchemaOrField → EngineState → Except SchemaError (Addr × EngineState)
  mode : JsonSchemaMode

/-- `GenerateJsonSchemaHandler.resolve_ref_schema`: if the dict has no
`$ref` key, return it as is; otherwise look the ref up in the definitions
registry, raising `LookupError` with the recursive-model hint when absent. -/
def resolve_ref_schema (st : EngineState) (a : Addr) : Except SchemaError Addr :=
  match st.heap a with
  | none => .error .invalidAddr
  | some s =>
    match s.get "$ref" with
    | none => .ok a
    | some ref =>
      match get_schema_from_definitions st ref with
      | none => .error (.lookupError
          ("Could not find a ref for " ++ ref.fstr ++
           ". Maybe you tried to call resolve_ref_schema from within a recursive model?"))
      | some b => .ok b

/-- `resolve_ref_schema` applied twice (for the idempotence property). -/
def resolveTwice (st : EngineState) (a : Addr) : Except SchemaError Addr :=
  match resolve_ref_schema st a with
  | .error e => .error e
  | .ok b => resolve_ref_schema st b

/-- An optional `handler_override` supplied to `GenerateJsonSchemaHandler`. -/
abbrev HandlerOverride := CoreSchemaOrField → EngineState → Except SchemaError (Addr × EngineState)

/-- `GenerateJsonSchemaHandler.__init__`: `self.handler` is the override if
one was supplied, else the engine's `generate_inner`
(`handler_override or generate_json_schema.generate_inner`); `self.mode` is
the engine's mode.  `__call__` is exactly `self.handler(...)` — no
ref-unwrapping — and `resolve_ref_schema` is the registry projection above. -/
def GenerateJsonSchemaHandler.mk (g : GenerateJsonSchema) (handler_override : Option HandlerOverride) :
    HandlerI EngineState where
  mode := g.mode
  call := fun cs st => (handler_override.getD g.generate_inner) cs st
  resolveRef := fun st a => resolve_ref_schema st a

/-- The state seen through an `UnpackedRefJsonSchemaHandler`: the engine state
plus the decorator's own nullable `original_schema` slot. -/
abbrev WState := EngineState × Option Addr

/-- `UnpackedRefJsonSchemaHandler` over an inner handler.  `__call__` stores
the raw inner result in `original_schema` and returns
`self.resolve_ref_schema` of it (which delegates to the inner handler);
`resolve_ref_schema` delegates; `mode` is copied from the inner handler. -/
def UnpackedRefJsonSchemaHandler.mk (inner : HandlerI EngineState) : HandlerI WState where
  mode := inner.mode
  call := fun cs s =>
    match inner.call cs s.1 with
    | .error e => .error e
    | .ok (a, st') =>
      match inner.resolveRef st' a with
      | .error e => .error e
      | .ok r => .ok (r, (st', some a))
  resolveRef := fun s a => inner.resolveRef s.1 a

/-- `UnpackedRefJsonSchemaHandler.update_schema`: if `original_schema` is
unset, return the argument unchanged; otherwise resolve it, and when the
resolved object is a different object than the original and the argument is a
different object than the resolved one, clear the resolved dict and copy the
argument's contents into it, then return `original_schema`. -/
def UnpackedRefJsonSchemaHandler.update_schema (inner : HandlerI EngineState)
    (s : WState) (schema : Addr) : Except SchemaError (Addr × EngineState) :=
  match s.2 with
  | none => .ok (schema, s.1)
  | some orig =>
    match inner.resolveRef s.1 orig with
    | .error e => .error e
    | .ok resolved =>
      if resolved ≠ orig ∧ schema ≠ resolved then
        match s.1.heap schema with
        | none => .error .invalidAddr
        | some content => .ok (orig, setHeap s.1 resolved content)
      else .ok (orig, s.1)

/-- A `GetJsonSchemaFunction` as the wrapper combinator hands it its handler:
it receives the (decorated) handler and the threaded state. -/
abbrev GetJsonSchemaFunction :=
  CoreSchemaOrField → HandlerI WState → WState → Except SchemaError (Addr × WState)

/-- `wrap_json_schema_fn_for_model_or_custom_type_with_ref_unpacking`: wrap
the given handler in an `UnpackedRefJsonSchemaHandler` (fresh, so its
`original_schema` starts unset), run `fn`, and pass its result through
`update_schema`. -/
def wrap_json_schema_fn_for_model_or_custom_type_with_ref_unpacking
    (fn : GetJsonSchemaFunction) (inner : HandlerI EngineState)
    (schema_or_field : CoreSchemaOrField) (st : EngineState) :
    Except SchemaError (Addr × EngineState) :=
  match fn schema_or_field (UnpackedRefJsonSchemaHandler.mk inner) (st, none) with
  | .error e => .error e
  | .ok (json_schema, s') => UnpackedRefJsonSchemaHandler.update_schema inner s' json_schema

/-- Address of the schema produced by a successful run. -/
def resAddr {σ : Type} (r : Except SchemaError (Addr × σ)) : Option Addr :=
  match r with
  | .ok (a, _) => some a
  | .error _ => none

/-- Heap lookup inside the state produced by a successful run. -/
def resHeap (r : Except SchemaError (Addr × EngineState)) (a : Addr) : Option Schema :=
  match r with
  | .ok (_, st) => st.heap a
  | .error _ => none

/-- Registry lookup inside the state produced by a successful run. -/
def resDefs (r : Except SchemaError (Addr × EngineState)) (k : JVal) : Option Addr :=
  match r with
  | .ok (_, st) => st.defs k
  | .error _ => none

/-- Contents of the object a successful decorated call returned. -/
def wResSchema (r : Except SchemaError (Addr × WState)) : Option Schema :=
  match r with
  | .ok (a, s) => s.1.heap a
  | .error _ => none

/-- Registry `{"A": {"type": "integer"}}` with a ref node `{"$ref": "A"}`:
object 0 is the ref marker, object 1 is the registry entry for `"A"`. -/
def stA : EngineState where
  heap := heapOf [(0, [("$ref", .str "A")]), (1, [("type", .str "integer")])]
  defs := defsOf [(.str "A", 1)]
  next := 2

/-- Like `stA` plus a pre-allocated fresh value
`{"type": "integer", "minimum": 0}` at object 2. -/
def stB : EngineState where
  heap := heapOf [(0, [("$ref", .str "A")]), (1, [("type", .str "integer")]),
                  (2, [("type", .str "integer"), ("minimum", .num 0)])]
  defs := defsOf [(.str "A", 1)]
  next := 3

/-- A registry whose entry for `"A"` is itself a ref marker:
object 0 is `{"$ref": "A"}`, the registry maps `"A"` to object 1 =
`{"$ref": "B"}` and `"B"` to object 2 = `{"type": "integer"}`. -/
def stC : EngineState where
  heap := heapOf [(0, [("$ref", .str "A")]), (1, [("$ref", .str "B")]),
                  (2, [("type", .str "integer")])]
  defs := defsOf [(.str "A", 1), (.str "B", 2)]
  next := 3

/-- A generation engine used in concrete runs; its `generate_inner` is never
reached because an override is supplied where a call happens. -/
def gEx : GenerateJsonSchema where
  generate_inner := fun _ _ => .error .invalidAddr
  mode := .validation

/-- A handler override returning the designated node unmodified (the terminal
handler hands the raw, possibly-ref schema straight through). -/
def idOverride : HandlerOverride :=
  fun cs st => .ok (cs, st)

/-- An extension function that calls its handler and then returns a freshly
allocated `{"type": "integer", "minimum": 0}` — a value distinct from the one
the handler gave it. -/
def extFresh : GetJsonSchemaFunction := fun cs h s =>
  match h.call cs s with
  | .error e => .error e
  | .ok (_, s') =>
    let p := alloc s'.1 [("type", .str "integer"), ("minimum", .num 0)]
    .ok (p.1, (p.2, s'.2))

/-- An extension function whose run ends with the decorator having stored
object 1 of `stB` (a non-ref schema) and returning the distinct object 2. -/
def extConstC10 : GetJsonSchemaFunction := fun _ _ _ =>
  .ok (2, (stB, some 1))

/-- C5: `resolve_ref_schema` on a schema with no `$ref` key returns it
unchanged, and does so for every state of the definitions registry (no
registry lookup is involved). -/
theorem resolve_ref_schema_nonref_noop (st : EngineState) (a : Addr) (s : Schema)
    (h1 : st.heap a = some s) (h2 : Schema.get s "$ref" = none) :
    resolve_ref_schema st a = .ok a ∧
      ∀ d2 : JVal → Option Addr, resolve_ref_schema { st with defs := d2 } a = .ok a := by
  refine ⟨?_, fun d2 => ?_⟩ <;> simp [resolve_ref_schema, h1, h2]

/-- Witness for C5: the non-ref schema `{"type": "integer"}` at object 1 of
`stA` resolves to itself, also under an emptied registry. -/
theorem resolve_ref_schema_nonref_noop_witness :
    resolve_ref_schema stA 1 = .ok 1 ∧
      resolve_ref_schema { stA with defs := defsOf [] } 1 = .ok 1 :=
  ⟨(resolve_ref_schema_nonref_noop stA 1 [("type", .str "integer")] rfl rfl).1,
   (resolve_ref_schema_nonref_noop stA 1 [("type", .str "integer")] rfl rfl).2 (defsOf [])⟩

/-- C6: resolving a ref marker whose name is absent from the registry fails
with the `LookupError` carrying the recursive-model hint and yields no
result; when the name is present it succeeds with the registry's object. -/
theorem resolve_ref_schema_missing_ref (st : EngineState) (a : Addr) (s : Schema) (r : JVal)
    (h1 : st.heap a = some s) (h2 : Schema.get s "$ref" = some r) :
    (st.defs r = none →
      resolve_ref_schema st a = .error (.lookupError
        ("Could not find a ref for " ++ r.fstr ++
         ". Maybe you tried to call resolve_ref_schema from within a recursive model?"))) ∧
    ∀ b : Addr, st.defs r = some b → resolve_ref_schema st a = .ok b := by
  constructor
  · intro h
    simp [resolve_ref_schema, get_schema_from_definitions, h1, h2, h]
  · intro b h
    simp [resolve_ref_schema, get_schema_from_definitions, h1, h2, h]

/-- Witness for C6: `{"$ref": "Missing"}` over the registry of `stA` fails
with the hint message, while `{"$ref": "A"}` succeeds. -/
theorem resolve_ref_schema_missing_ref_witness :
    resolve_ref_schema { stA with heap := heapOf [(0, [("$ref", .str "Missing")])] } 0 =
      .error (.lookupError
        ("Could not find a ref for " ++ (JVal.str "Missing").fstr ++
         ". Maybe you tried to call resolve_ref_schema from within a recursive model?")) ∧
    resolve_ref_schema stA 0 = .ok 1 :=
  ⟨(resolve_ref_schema_missing_ref { stA with heap := heapOf [(0, [("$ref", .str "Missing")])] }
      0 [("$ref", .str "Missing")] (.str "Missing") rfl rfl).1 rfl,
   (resolve_ref_schema_missing_ref stA 0 [("$ref", .str "A")] (.str "A") rfl rfl).2 1 rfl⟩

/-- C7: `update_schema` on a decorator whose `original_schema` slot is still
unset returns its argument unchanged and leaves the engine state (heap and
definitions registry) untouched. -/
theorem update_schema_uninvoked_noop (inner : HandlerI EngineState) (st : EngineState) (v : Addr) :
    UnpackedRefJsonSchemaHandler.update_schema inner (st, none) v = .ok (v, st) :=
  rfl

/-- C8: the terminal handler's `__call__` is exactly the override when one
was supplied and exactly the engine's `generate_inner` otherwise — no
ref-unwrapping happens in between. -/
theorem generate_json_schema_handler_call_passthrough (g : GenerateJsonSchema)
    (f : HandlerOverride) (cs : CoreSchemaOrField) (st : EngineState) :
    (GenerateJsonSchemaHandler.mk g (some f)).call cs st = f cs st ∧
      (GenerateJsonSchemaHandler.mk g none).call cs st = g.generate_inner cs st :=
  ⟨rfl, rfl⟩

/-- C9: the mode of every layer is fixed at construction and identical across
the chain: the terminal handler carries the engine's mode, the decorator
carries its inner handler's mode, and a decorated terminal handler carries
the engine's mode.  Handlers are immutable values and `call`, `resolveRef`
and `update_schema` only thread `EngineState`/`WState`, which contain no
mode, so no operation can change any handler's mode. -/
theorem handler_mode_fixed (g : GenerateJsonSchema) (ho : Option HandlerOverride)
    (inner : HandlerI EngineState) :
    (GenerateJsonSchemaHandler.mk g ho).mode = g.mode ∧
      (UnpackedRefJsonSchemaHandler.mk inner).mode = inner.mode ∧
      (UnpackedRefJsonSchemaHandler.mk (GenerateJsonSchemaHandler.mk g ho)).mode = g.mode :=
  ⟨rfl, rfl, rfl⟩

/-- Counterexample to C3 as stated: over `stC` (registry entry `"A"` is
itself the ref marker `{"$ref": "B"}`), the decorator around a terminal
handler that hands back the ref node `{"$ref": "A"}` returns a schema that
still contains a `$ref` key. -/
theorem unpacked_call_can_return_ref :
    wResSchema ((UnpackedRefJsonSchemaHandler.mk
        (GenerateJsonSchemaHandler.mk gEx (some idOverride))).call 0 (stC, none)) =
      some [("$ref", .str "B")] ∧
    Schema.get [("$ref", .str "B")] "$ref" ≠ none := by
  exact ⟨rfl, by decide⟩

/-- C3 amended: the decorator's `transform` stores the raw inner result as
`original_schema` and returns the inner handler's `resolveRef` of it — one
resolution step, which is ref-free exactly when that resolution is. -/
theorem unpacked_call_resolves_inner (inner : HandlerI EngineState)
    (cs : CoreSchemaOrField) (st st' : EngineState) (o0 : Option Addr) (a r : Addr)
    (h1 : inner.call cs st = .ok (a, st')) (h2 : inner.resolveRef st' a = .ok r) :
    (UnpackedRefJsonSchemaHandler.mk inner).call cs (st, o0) = .ok (r, (st', some a)) := by
  simp [UnpackedRefJsonSchemaHandler.mk, h1, h2]

/-- Witness for the amended C3: over `stA` the decorator stores the raw ref
marker (object 0) and returns its resolution (object 1). -/
theorem unpacked_call_resolves_inner_witness :
    (UnpackedRefJsonSchemaHandler.mk
        (GenerateJsonSchemaHandler.mk gEx (some idOverride))).call 0 (stA, none) =
      .ok (1, (stA, some 0)) :=
  unpacked_call_resolves_inner (GenerateJsonSchemaHandler.mk gEx (some idOverride))
    0 stA stA none 0 1 rfl rfl

/-- Counterexample to C4 as stated: in `stC` the ref marker `{"$ref": "A"}`
(object 0) resolves to object 1 = `{"$ref": "B"}`, but resolving twice
reaches object 2 = `{"type": "integer"}`, a different object with different
contents — so `resolveRef` is not idempotent when the registry entry itself
contains a `$ref` key. -/
theorem resolve_ref_schema_not_idempotent :
    resolve_ref_schema stC 0 = .ok 1 ∧
    resolveTwice stC 0 = .ok 2 ∧
    resolveTwice stC 0 ≠ resolve_ref_schema stC 0 ∧
    stC.heap 1 ≠ stC.heap 2 := by
  refine ⟨rfl, rfl, ?_, ?_⟩ <;> decide

/-- C4 amended: `resolve_ref_schema` is idempotent on every value whose
resolution contains no `$ref` key (in particular on non-ref values and on
refs whose registry entry is concrete). -/
theorem resolve_ref_schema_idempotent_on_concrete (st : EngineState) (a b : Addr) (s : Schema)
    (h1 : resolve_ref_schema st a = .ok b) (h2 : st.heap b = some s)
    (h3 : Schema.get s "$ref" = none) :
    resolve_ref_schema st b = .ok b ∧ resolveTwice st a = resolve_ref_schema st a := by
  have hb : resolve_ref_schema st b = .ok b := by
    simp [resolve_ref_schema, h2, h3]
  refine ⟨hb, ?_⟩
  simp [resolveTwice, h1, hb]

/-- Witness for the amended C4: in `stA`, `{"$ref": "A"}` resolves to the
concrete object 1 and a second resolution is a no-op. -/
theorem resolve_ref_schema_idempotent_on_concrete_witness :
    resolve_ref_schema stA 1 = .ok 1 ∧ resolveTwice stA 0 = resolve_ref_schema stA 0 :=
  resolve_ref_schema_idempotent_on_concrete stA 0 1 [("type", .str "integer")] rfl rfl rfl

/-- C1: when the stored `original_schema` is a ref marker resolving through
the registry to a distinct object, `update_schema` with a value distinct from
that object overwrites the registry entry's contents with the new value's
contents, leaves the ref marker itself untouched, returns the ref marker, and
any subsequent resolution of that ref — also through a different decorator
over the same registry — yields the updated object. -/
theorem update_schema_overwrites_registry (g : GenerateJsonSchema) (ho : Option HandlerOverride)
    (st : EngineState) (orig res new : Addr) (os ns : Schema) (r : JVal)
    (h1 : st.heap orig = some os) (h2 : Schema.get os "$ref" = some r)
    (h3 : st.defs r = some res) (h4 : res ≠ orig)
    (h5 : st.heap new = some ns) (h6 : new ≠ res) :
    UnpackedRefJsonSchemaHandler.update_schema (GenerateJsonSchemaHandler.mk g ho)
        (st, some orig) new = .ok (orig, setHeap st res ns) ∧
    (setHeap st res ns).defs r = some res ∧
    (setHeap st res ns).heap res = some ns ∧
    (setHeap st res ns).heap orig = some os ∧
    ∀ (g2 : GenerateJsonSchema) (ho2 : Option HandlerOverride) (o2 : Option Addr)
      (a2 : Addr) (s2 : Schema),
      (setHeap st res ns).heap a2 = some s2 → Schema.get s2 "$ref" = some r →
      (UnpackedRefJsonSchemaHandler.mk (GenerateJsonSchemaHandler.mk g2 ho2)).resolveRef
        (setHeap st res ns, o2) a2 = .ok res := by
  have hres : resolve_ref_schema st orig = .ok res := by
    simp [resolve_ref_schema, get_schema_from_definitions, h1, h2, h3]
  refine ⟨?_, ?_, ?_, ?_, ?_⟩
  · simp [UnpackedRefJsonSchemaHandler.update_schema, GenerateJsonSchemaHandler.mk, hres,
      h4, h6, h5]
  · exact h3
  · simp [setHeap]
  · simp [setHeap, Ne.symm h4, h1]
  · intro g2 ho2 o2 a2 s2 ha hs
    simp [UnpackedRefJsonSchemaHandler.mk, GenerateJsonSchemaHandler.mk, resolve_ref_schema,
      get_schema_from_definitions, setHeap, ha, hs] at ha ⊢
    simp [ha, hs, h3]

/-- Witness for C1 over `stB`: the ref marker at object 0 resolves to the
registry's object 1; updating with the distinct object 2 rewrites object 1's
contents and keeps the marker, and a later resolution through a second
decorator sees the new contents. -/
theorem update_schema_overwrites_registry_witness :
    UnpackedRefJsonSchemaHandler.update_schema (GenerateJsonSchemaHandler.mk gEx none)
        (stB, some 0) 2 =
      .ok (0, setHeap stB 1 [("type", .str "integer"), ("minimum", .num 0)]) ∧
    (setHeap stB 1 [("type", .str "integer"), ("minimum", .num 0)]).heap 1 =
      some [("type", .str "integer"), ("minimum", .num 0)] ∧
    (setHeap stB 1 [("type", .str "integer"), ("minimum", .num 0)]).heap 0 =
      some [("$ref", .str "A")] ∧
    (UnpackedRefJsonSchemaHandler.mk
        (GenerateJsonSchemaHandler.mk gEx (some idOverride))).resolveRef
      (setHeap stB 1 [("type", .str "integer"), ("minimum", .num 0)], none) 0 = .ok 1 := by
  have h := update_schema_overwrites_registry gEx none stB 0 1 2
    [("$ref", .str "A")] [("type", .str "integer"), ("minimum", .num 0)] (.str "A")
    rfl rfl rfl (by decide) rfl (by decide)
  exact ⟨h.1, h.2.2.1, h.2.2.2.1,
    h.2.2.2.2 gEx (some idOverride) none 0 [("$ref", .str "A")] rfl rfl⟩

/-- C2: over registry `{"A": {"type": "integer"}}` and input node 0
(`{"$ref": "A"}`) with a terminal handler returning that ref unmodified, the
decorated handler hands the extension the concrete object 1 =
`{"type": "integer"}` (no `$ref` key); running `extFresh` through the
chain-builder returns the original ref marker object 0 (still
`{"$ref": "A"}`) while the registry's `"A"` entry now holds
`{"type": "integer", "minimum": 0}`. -/
theorem chain_builder_end_to_end :
    resAddr ((UnpackedRefJsonSchemaHandler.mk
        (GenerateJsonSchemaHandler.mk gEx (some idOverride))).call 0 (stA, none)) = some 1 ∧
    wResSchema ((UnpackedRefJsonSchemaHandler.mk
        (GenerateJsonSchemaHandler.mk gEx (some idOverride))).call 0 (stA, none)) =
      some [("type", .str "integer")] ∧
    Schema.get [("type", .str "integer")] "$ref" = none ∧
    resAddr (wrap_json_schema_fn_for_model_or_custom_type_with_ref_unpacking extFresh
        (GenerateJsonSchemaHandler.mk gEx (some idOverride)) 0 stA) = some 0 ∧
    resHeap (wrap_json_schema_fn_for_model_or_custom_type_with_ref_unpacking extFresh
        (GenerateJsonSchemaHandler.mk gEx (some idOverride)) 0 stA) 0 =
      some [("$ref", .str "A")] ∧
    resDefs (wrap_json_schema_fn_for_model_or_custom_type_with_ref_unpacking extFresh
        (GenerateJsonSchemaHandler.mk gEx (some idOverride)) 0 stA) (.str "A") = some 1 ∧
    resHeap (wrap_json_schema_fn_for_model_or_custom_type_with_ref_unpacking extFresh
        (GenerateJsonSchemaHandler.mk gEx (some idOverride)) 0 stA) 1 =
      some [("type", .str "integer"), ("minimum", .num 0)] :=
  ⟨rfl, rfl, rfl, rfl, rfl, rfl, rfl⟩

/-- C10: when the stored `original_schema` is not a ref marker (its
resolution is itself), `update_schema` returns it and leaves the engine state
— heap and registry — exactly unchanged, discarding any distinct new value;
consequently a chain-built run ending in that configuration returns the
original and the untouched state. -/
theorem update_schema_nonref_discards (g : GenerateJsonSchema) (ho : Option HandlerOverride)
    (st : EngineState) (orig : Addr) (os : Schema) (new : Addr)
    (h1 : st.heap orig = some os) (h2 : Schema.get os "$ref" = none) :
    UnpackedRefJsonSchemaHandler.update_schema (GenerateJsonSchemaHandler.mk g ho)
        (st, some orig) new = .ok (orig, st) ∧
    ∀ (fn : GetJsonSchemaFunction) (cs : CoreSchemaOrField) (st0 : EngineState),
      fn cs (UnpackedRefJsonSchemaHandler.mk (GenerateJsonSchemaHandler.mk g ho)) (st0, none) =
        .ok (new, (st, some orig)) →
      wrap_json_schema_fn_for_model_or_custom_type_with_ref_unpacking fn
        (GenerateJsonSchemaHandler.mk g ho) cs st0 = .ok (orig, st) := by
  have hres : resolve_ref_schema st orig = .ok orig := by
    simp [resolve_ref_schema, h1, h2]
  have hmain : UnpackedRefJsonSchemaHandler.update_schema (GenerateJsonSchemaHandler.mk g ho)
      (st, some orig) new = .ok (orig, st) := by
    simp [UnpackedRefJsonSchemaHandler.update_schema, GenerateJsonSchemaHandler.mk, hres]
  refine ⟨hmain, ?_⟩
  intro fn cs st0 hfn
  simp [wrap_json_schema_fn_for_model_or_custom_type_with_ref_unpacking, hfn, hmain]

/-- Witness for C10: object 1 of `stB` is the non-ref `{"type": "integer"}`;
updating with the distinct fresh object 2 returns object 1 and the state
unchanged, both directly and through the chain-builder. -/
theorem update_schema_nonref_discards_witness :
    UnpackedRefJsonSchemaHandler.update_schema (GenerateJsonSchemaHandler.mk gEx none)
        (stB, some 1) 2 = .ok (1, stB) ∧
    wrap_json_schema_fn_for_model_or_custom_type_with_ref_unpacking extConstC10
        (GenerateJsonSchemaHandler.mk gEx none) 0 stB = .ok (1, stB) := by
  have h := update_schema_nonref_discards gEx none stB 1 [("type", .str "integer")] 2 rfl rfl
  exact ⟨h.1, h.2 extConstC10 0 stB rfl⟩

end SchemaGenShared
